import Mathlib

/-!
Shallow embedding of `src/main.py` (rocket delta-v model and propellant
optimizer).

Conventions of the embedding:
* Python floats are modelled by real numbers (`ℝ`); `np.log` is modelled by
  `Real.log`.  All inputs the claims exercise keep the logarithm argument
  positive, so the junk values of `Real.log` on nonpositive reals are never
  relied upon.
* A Python function that can raise is modelled as returning
  `Except PyErr _`; the error constructors record which Python exception is
  raised.  Pure value-level shadows (suffix `_val`) give the returned real
  number on the non-raising inputs, and lemmas connect the two.
* Python `dict` iteration order is insertion order, so the module-level
  `PROPELLANTS` dictionary is embedded as an association list in the order of
  the literal in the source, and `.values()` as the list of its second
  components.
-/

namespace RocketSpecs

/-- Exceptions the embedded code can signal.  `zeroDivisionError` and
`indexError` are the Python exceptions actually reachable in `src/main.py`
(float division by zero in `mass_ratio`; `combinations[0]` on an empty list
in `find_best_rocket`).  `invalidConfigurationError` and
`noFeasibleSolutionError` are modelled from the spec: the spec names these
error kinds, but no such class exists anywhere in the code; they are included
only so that claims mentioning them can be stated and compared. -/
inductive PyErr where
  | zeroDivisionError
  | indexError
  | invalidConfigurationError
  | noFeasibleSolutionError
  deriving DecidableEq, Repr

/-- `Propellant` dataclass: name, specific impulse (s), density (kg/m^3). -/
structure Propellant where
  name : String
  isp : ℝ
  density : ℝ

/-- `Stage` dataclass: a propellant reference and the three mass figures. -/
structure Stage where
  propellant : Propellant
  dry_mass : ℝ
  propellant_mass : ℝ
  payload_mass : ℝ

/-- Class attribute `g0 = 9.81` of `Stage` in the source (note: the source
uses 9.81, not the standard-gravity constant 9.80665). -/
def Stage.g0 : ℝ := 9.81

/-- `Stage.total_mass`: `dry_mass + propellant_mass + payload_mass`. -/
def Stage.total_mass (s : Stage) : ℝ :=
  s.dry_mass + s.propellant_mass + s.payload_mass

/-- Value of `Stage.mass_ratio` on the inputs where Python does not raise
(denominator nonzero); Lean's total division returns junk 0 at denominator 0,
which `Stage.mass_ratio` (the faithful version below) never exposes. -/
noncomputable def Stage.mass_ratio_val (s : Stage) : ℝ :=
  s.total_mass / (s.dry_mass + s.payload_mass)

/-- `Stage.mass_ratio`: `total_mass / (dry_mass + payload_mass)`.  Python
raises `ZeroDivisionError` when the denominator is zero. -/
noncomputable def Stage.mass_ratio (s : Stage) : Except PyErr ℝ :=
  if s.dry_mass + s.payload_mass = 0 then .error .zeroDivisionError
  else .ok s.mass_ratio_val

/-- Value of `Stage.delta_v` on the non-raising inputs:
`g0 * propellant.isp * log (mass_ratio)`. -/
noncomputable def Stage.delta_v_val (s : Stage) : ℝ :=
  Stage.g0 * s.propellant.isp * Real.log s.mass_ratio_val

/-- `Stage.delta_v`: `g0 * propellant.isp * np.log(mass_ratio)`; propagates
the `ZeroDivisionError` raised by `mass_ratio`. -/
noncomputable def Stage.delta_v (s : Stage) : Except PyErr ℝ :=
  (s.mass_ratio).map (fun r => Stage.g0 * s.propellant.isp * Real.log r)

/-- `Stage.propellant_volume`: `propellant_mass / propellant.density`.  Every
propellant in the module catalog has nonzero density, so the zero-denominator
junk value of Lean's division is unreachable through the catalog. -/
noncomputable def Stage.propellant_volume (s : Stage) : ℝ :=
  s.propellant_mass / s.propellant.density

/-- `Rocket`: an ordered list of stages. -/
structure Rocket where
  stages : List Stage

/-- `sum(stage.delta_v() for stage in stages)`: Python evaluates the
generator left to right and the first raised exception propagates. -/
noncomputable def sum_delta_v : List Stage → Except PyErr ℝ
  | [] => .ok 0
  | s :: rest =>
    match s.delta_v with
    | .error e => .error e
    | .ok d =>
      match sum_delta_v rest with
      | .error e => .error e
      | .ok t => .ok (d + t)

/-- `Rocket.total_delta_v`: sum of the stages' `delta_v()` in stage order. -/
noncomputable def Rocket.total_delta_v (r : Rocket) : Except PyErr ℝ :=
  sum_delta_v r.stages

/-- Value of `Rocket.total_delta_v` on the non-raising inputs. -/
noncomputable def Rocket.total_delta_v_val (r : Rocket) : ℝ :=
  (r.stages.map Stage.delta_v_val).sum

/-- The module-level propellant `Propellant('RP-1/LOX', 263, 806)`. -/
def RP1_LOX : Propellant := ⟨"RP-1/LOX", 263, 806⟩

/-- The module-level propellant `Propellant('LH2/LOX', 421, 71)`. -/
def LH2_LOX : Propellant := ⟨"LH2/LOX", 421, 71⟩

/-- The module-level propellant `Propellant('N2O4/UDMH', 320, 793)`. -/
def N2O4_UDMH : Propellant := ⟨"N2O4/UDMH", 320, 793⟩

/-- The module-level propellant `Propellant('Solid', 280, 1500)`. -/
def Solid : Propellant := ⟨"Solid", 280, 1500⟩

/-- The module-level `PROPELLANTS` dictionary, as an association list in the
insertion order of the dict literal (Python dicts iterate in insertion
order). -/
def PROPELLANTS : List (String × Propellant) :=
  [("RP-1/LOX", RP1_LOX), ("LH2/LOX", LH2_LOX),
   ("N2O4/UDMH", N2O4_UDMH), ("Solid", Solid)]

/-- `PROPELLANTS.values()`: the propellants in dict iteration order. -/
def PROPELLANTS_values : List Propellant := PROPELLANTS.map Prod.snd

/-- The inner `recursive_generate_combinations(current_combo, depth)` of
`generate_combinations`.  The Python helper recurses while `depth != n`,
increasing `depth` by one each level and appending each option to the end of
`current_combo`; it is only ever called with `depth ≤ n`, so it is embedded
with the remaining depth `n - depth` as the structural fuel argument. -/
def recursive_generate_combinations {α : Type u} (possible_options : List α)
    (current_combo : List α) : Nat → List (List α)
  | 0 => [current_combo]
  | k + 1 =>
    possible_options.flatMap
      (fun prop => recursive_generate_combinations possible_options
        (current_combo ++ [prop]) k)

/-- `generate_combinations(possible_options, n)`: all ordered length-`n`
selections, with repetition, from `possible_options`, generated depth-first
(first position varies slowest, in option-list order). -/
def generate_combinations {α : Type u} (possible_options : List α)
    (n : Nat) : List (List α) :=
  recursive_generate_combinations possible_options [] n

/-- Written from the spec's words, for comparison with the code's
`generate_combinations`: the `N`-fold Cartesian product of the catalog with
itself, built depth-first, at each level appending every catalog propellant
in turn. -/
def spec_cartesian_product {α : Type u} (opts : List α) : Nat → List (List α)
  | 0 => [[]]
  | n + 1 => opts.flatMap (fun p => (spec_cartesian_product opts n).map (p :: ·))

/-- The body of the `for i in range(len(stages))` loop in
`find_all_stage_combinations`: stage `i` keeps the mass budget of
`stages[i]` but uses `combination[i]`.  The Python loop indexes both lists
at the same `i`; since every generated combination has length
`len(stages)`, the index-parallel traversal is embedded as `zipWith`. -/
def build_candidate (stages : List Stage) (combination : List Propellant) :
    List Stage :=
  List.zipWith
    (fun prop base =>
      Stage.mk prop base.dry_mass base.propellant_mass base.payload_mass)
    combination stages

/-- `find_all_stage_combinations(stages)`: one candidate stage list per
generated propellant combination.  The volume-constraint check present in
the source is commented out (`# if all(s.propellant_volume <= ...)`), and
the function takes no volume-limit argument, so every candidate is kept. -/
def find_all_stage_combinations (stages : List Stage) : List (List Stage) :=
  (generate_combinations PROPELLANTS_values stages.length).map
    (build_candidate stages)

/-- The `for combination in combinations` loop of `find_best_rocket`,
with the running `best_rocket` and `highest_delta_v`.  The comparison is the
source's strict `delta_v > highest_delta_v`. -/
noncomputable def find_best_rocket_loop :
    List (List Stage) → Rocket → ℝ → Except PyErr Rocket
  | [], best, _ => .ok best
  | c :: rest, best, highest =>
    match Rocket.total_delta_v (Rocket.mk c) with
    | .error e => .error e
    | .ok dv =>
      if highest < dv then find_best_rocket_loop rest (Rocket.mk c) dv
      else find_best_rocket_loop rest best highest

/-- `find_best_rocket(combinations)`: initializes
`highest_delta_v = -1` and `best_rocket = Rocket(combinations[0])` — which
raises `IndexError` on an empty list — then scans every combination,
keeping the first one whose total delta-v strictly exceeds the running
highest. -/
noncomputable def find_best_rocket (combinations : List (List Stage)) :
    Except PyErr Rocket :=
  match combinations with
  | [] => .error .indexError
  | c0 :: rest => find_best_rocket_loop (c0 :: rest) (Rocket.mk c0) (-1)

/-- Replacing a stage's propellant while keeping the three mass figures,
as the optimizer does when it builds a new `Stage` from a mass budget and a
propellant choice. -/
def set_propellant (s : Stage) (p : Propellant) : Stage :=
  { s with propellant := p }

/-- A concrete test stage whose mass ratio is exactly `e`: unit isp and
density, dry mass 1, propellant mass `e - 1`, no payload.  Its `delta_v()`
is then exactly `g0`, which separates the code's `g0 = 9.81` from the
spec's `9.80665`. -/
noncomputable def unit_isp_test_stage : Stage :=
  Stage.mk (Propellant.mk "TestProp" 1 1) 1 (Real.exp 1 - 1) 0

/-! ### Helper lemmas -/

lemma recursive_generate_combinations_eq_map {α : Type u} (opts : List α)
    (cur : List α) (k : Nat) :
    recursive_generate_combinations opts cur k =
      (spec_cartesian_product opts k).map (fun l => cur ++ l) := by
  induction k generalizing cur with
  | zero => simp [recursive_generate_combinations, spec_cartesian_product]
  | succ k ih =>
    simp [recursive_generate_combinations, spec_cartesian_product, ih,
      List.map_flatMap, List.map_map, Function.comp_def, List.append_assoc]

lemma generate_combinations_eq_spec_product {α : Type u} (opts : List α)
    (n : Nat) :
    generate_combinations opts n = spec_cartesian_product opts n := by
  simpa using recursive_generate_combinations_eq_map opts [] n

lemma length_spec_cartesian_product {α : Type u} (opts : List α) (n : Nat) :
    (spec_cartesian_product opts n).length = opts.length ^ n := by
  induction n with
  | zero => simp [spec_cartesian_product]
  | succ n ih =>
    simp [spec_cartesian_product, List.length_flatMap, Function.comp_def,
      List.map_const, List.sum_replicate, smul_eq_mul, ih, pow_succ, mul_comm]

lemma length_generate_combinations {α : Type u} (opts : List α) (n : Nat) :
    (generate_combinations opts n).length = opts.length ^ n := by
  rw [generate_combinations_eq_spec_product, length_spec_cartesian_product]

lemma Stage.delta_v_eq_ok (s : Stage)
    (h : s.dry_mass + s.payload_mass ≠ 0) :
    s.delta_v = .ok s.delta_v_val := by
  simp [Stage.delta_v, Stage.mass_ratio, h, Stage.delta_v_val, Except.map]

lemma sum_delta_v_eq_ok (l : List Stage)
    (h : ∀ s ∈ l, s.dry_mass + s.payload_mass ≠ 0) :
    sum_delta_v l = .ok ((l.map Stage.delta_v_val).sum) := by
  induction l with
  | nil => simp [sum_delta_v]
  | cons s t ih =>
    have hs := h s (by simp)
    have ht : ∀ x ∈ t, x.dry_mass + x.payload_mass ≠ 0 := fun x hx =>
      h x (by simp [hx])
    simp [sum_delta_v, Stage.delta_v_eq_ok s hs, ih ht]

lemma total_delta_v_eq_ok (c : List Stage)
    (h : ∀ s ∈ c, s.dry_mass + s.payload_mass ≠ 0) :
    Rocket.total_delta_v (Rocket.mk c) =
      .ok (Rocket.total_delta_v_val (Rocket.mk c)) := by
  simp [Rocket.total_delta_v, Rocket.total_delta_v_val, sum_delta_v_eq_ok c h]

lemma one_lt_mass_ratio_val (s : Stage)
    (hden : 0 < s.dry_mass + s.payload_mass)
    (hprop : 0 < s.propellant_mass) : 1 < s.mass_ratio_val := by
  rw [Stage.mass_ratio_val, Stage.total_mass, one_lt_div hden]; linarith

lemma mass_ratio_val_eq_one (s : Stage)
    (hden : s.dry_mass + s.payload_mass ≠ 0)
    (hprop : s.propellant_mass = 0) : s.mass_ratio_val = 1 := by
  have h : s.dry_mass + 0 + s.payload_mass = s.dry_mass + s.payload_mass := by
    ring
  rw [Stage.mass_ratio_val, Stage.total_mass, hprop, h, div_self hden]

lemma delta_v_val_nonneg (s : Stage) (hprop : 0 ≤ s.propellant_mass)
    (hden : 0 < s.dry_mass + s.payload_mass)
    (hisp : 0 < s.propellant.isp) : 0 ≤ s.delta_v_val := by
  have hr : 1 ≤ s.mass_ratio_val := by
    rw [Stage.mass_ratio_val, Stage.total_mass, one_le_div hden]; linarith
  have hlog := Real.log_nonneg hr
  have hg : (0 : ℝ) ≤ Stage.g0 := by rw [Stage.g0]; norm_num
  exact mul_nonneg (mul_nonneg hg hisp.le) hlog

lemma total_delta_v_val_nonneg (c : List Stage)
    (h : ∀ s ∈ c, 0 ≤ s.propellant_mass ∧
      0 < s.dry_mass + s.payload_mass ∧ 0 < s.propellant.isp) :
    0 ≤ Rocket.total_delta_v_val (Rocket.mk c) := by
  rw [Rocket.total_delta_v_val]
  apply List.sum_nonneg
  intro x hx
  simp only [List.mem_map] at hx
  obtain ⟨s, hs, rfl⟩ := hx
  exact delta_v_val_nonneg s (h s hs).1 (h s hs).2.1 (h s hs).2.2

lemma find_best_rocket_loop_cons {c : List Stage} {rest : List (List Stage)}
    {best : Rocket} {highest dv : ℝ}
    (hdv : Rocket.total_delta_v (Rocket.mk c) = .ok dv) :
    find_best_rocket_loop (c :: rest) best highest =
      if highest < dv then find_best_rocket_loop rest (Rocket.mk c) dv
      else find_best_rocket_loop rest best highest := by
  simp [find_best_rocket_loop, hdv]

lemma total_delta_v_single (p : Propellant) (d pm pl : ℝ)
    (h : d + pl ≠ 0) :
    Rocket.total_delta_v (Rocket.mk [Stage.mk p d pm pl]) =
      .ok (Stage.g0 * p.isp * Real.log ((d + pm + pl) / (d + pl))) := by
  simp [Rocket.total_delta_v, sum_delta_v, Stage.delta_v, Stage.mass_ratio, h,
    Stage.mass_ratio_val, Stage.total_mass, Except.map]

/-- Invariant of the `for combination in combinations` loop: either every
remaining candidate scores at most the running highest (and the running best
is returned), or the loop returns the first remaining candidate that strictly
exceeds the running highest and every later candidate's score, i.e. the first
maximizer among the remaining candidates. -/
lemma find_best_rocket_loop_spec (l : List (List Stage)) :
    ∀ (best : Rocket) (highest : ℝ),
    (∀ c ∈ l, ∀ s ∈ c, s.dry_mass + s.payload_mass ≠ 0) →
    ((∀ c ∈ l, Rocket.total_delta_v_val (Rocket.mk c) ≤ highest) ∧
      find_best_rocket_loop l best highest = .ok best) ∨
    (∃ (i : Nat) (hi : i < l.length),
      find_best_rocket_loop l best highest =
        .ok (Rocket.mk (l.get ⟨i, hi⟩)) ∧
      highest < Rocket.total_delta_v_val (Rocket.mk (l.get ⟨i, hi⟩)) ∧
      (∀ c ∈ l.take i, Rocket.total_delta_v_val (Rocket.mk c) <
        Rocket.total_delta_v_val (Rocket.mk (l.get ⟨i, hi⟩))) ∧
      (∀ c ∈ l, Rocket.total_delta_v_val (Rocket.mk c) ≤
        Rocket.total_delta_v_val (Rocket.mk (l.get ⟨i, hi⟩)))) := by
  induction l with
  | nil =>
    intro best highest _
    left
    exact ⟨by simp, by simp [find_best_rocket_loop]⟩
  | cons c rest ih =>
    intro best highest hwf
    have hwfc : ∀ s ∈ c, s.dry_mass + s.payload_mass ≠ 0 := hwf c (by simp)
    have hwfrest : ∀ c₂ ∈ rest, ∀ s ∈ c₂, s.dry_mass + s.payload_mass ≠ 0 :=
      fun c₂ hc₂ => hwf c₂ (by simp [hc₂])
    have hok := total_delta_v_eq_ok c hwfc
    have hstep : find_best_rocket_loop (c :: rest) best highest =
        if highest < Rocket.total_delta_v_val (Rocket.mk c) then
          find_best_rocket_loop rest (Rocket.mk c)
            (Rocket.total_delta_v_val (Rocket.mk c))
        else find_best_rocket_loop rest best highest :=
      find_best_rocket_loop_cons hok
    by_cases h1 : highest < Rocket.total_delta_v_val (Rocket.mk c)
    · rw [hstep, if_pos h1]
      rcases ih (Rocket.mk c) (Rocket.total_delta_v_val (Rocket.mk c))
          hwfrest with ⟨hall, heq⟩ | ⟨i, hi, heq, hgt, hfirst, hmax⟩
      · right
        refine ⟨0, by simp, by rw [heq]; rfl, by simpa using h1, by simp, ?_⟩
        intro c₂ hc₂
        rcases List.mem_cons.1 hc₂ with rfl | hmem
        · simp
        · simpa using hall c₂ hmem
      · right
        refine ⟨i + 1, by simpa using hi, by rw [heq]; rfl, ?_, ?_, ?_⟩
        · exact lt_trans h1 hgt
        · intro c₂ hc₂
          rcases List.mem_cons.1 (by simpa [List.take_succ_cons] using hc₂)
            with rfl | hmem
          · exact hgt
          · exact hfirst c₂ hmem
        · intro c₂ hc₂
          rcases List.mem_cons.1 hc₂ with rfl | hmem
          · exact le_of_lt hgt
          · exact hmax c₂ hmem
    · rw [hstep, if_neg h1]
      rcases ih best highest hwfrest with ⟨hall, heq⟩ |
        ⟨i, hi, heq, hgt, hfirst, hmax⟩
      · left
        refine ⟨?_, heq⟩
        intro c₂ hc₂
        rcases List.mem_cons.1 hc₂ with rfl | hmem
        · exact not_lt.1 h1
        · exact hall c₂ hmem
      · right
        refine ⟨i + 1, by simpa using hi, by rw [heq]; rfl, hgt, ?_, ?_⟩
        · intro c₂ hc₂
          rcases List.mem_cons.1 (by simpa [List.take_succ_cons] using hc₂)
            with rfl | hmem
          · exact lt_of_le_of_lt (not_lt.1 h1) hgt
          · exact hfirst c₂ hmem
        · intro c₂ hc₂
          rcases List.mem_cons.1 hc₂ with rfl | hmem
          · exact le_of_lt (lt_of_le_of_lt (not_lt.1 h1) hgt)
          · exact hmax c₂ hmem

lemma delta_v_val_lt_of_isp_lt (s : Stage) (p : Propellant)
    (hprop : 0 < s.propellant_mass)
    (hden : 0 < s.dry_mass + s.payload_mass)
    (hisp : s.propellant.isp < p.isp) :
    s.delta_v_val < (set_propellant s p).delta_v_val := by
  have hr := one_lt_mass_ratio_val s hden hprop
  have hlog := Real.log_pos hr
  have hg : (0 : ℝ) < Stage.g0 := by rw [Stage.g0]; norm_num
  have hratio : (set_propellant s p).mass_ratio_val = s.mass_ratio_val := rfl
  rw [Stage.delta_v_val, Stage.delta_v_val, hratio]
  exact mul_lt_mul_of_pos_right (mul_lt_mul_of_pos_left hisp hg) hlog

/-! ### Claims -/

/-- C3: for every catalog and every stage count `n`, the candidate
generation `generate_combinations` produces exactly `|catalog| ^ n` ordered
sequences, and they are precisely the `n`-fold Cartesian product of the
catalog with itself (repetition allowed) enumerated depth-first in the
catalog's iteration order, as described by `spec_cartesian_product`. -/
theorem claim3_generate_combinations_cartesian_product {α : Type u}
    (catalog : List α) (n : Nat) :
    generate_combinations catalog n = spec_cartesian_product catalog n ∧
    (generate_combinations catalog n).length = catalog.length ^ n :=
  ⟨generate_combinations_eq_spec_product catalog n,
   length_generate_combinations catalog n⟩

/-- C10: for stage count 0, `generate_combinations` returns exactly one
(empty) candidate for every catalog, the empty catalog included; the full
pipeline on an empty stage list therefore succeeds and returns a rocket
whose `total_delta_v()` is 0 rather than failing. -/
theorem claim10_zero_stages_single_empty_candidate :
    (∀ (catalog : List Propellant), generate_combinations catalog 0 = [[]]) ∧
    find_all_stage_combinations [] = [[]] ∧
    find_best_rocket (find_all_stage_combinations []) = .ok (Rocket.mk []) ∧
    Rocket.total_delta_v (Rocket.mk []) = .ok 0 := by
  refine ⟨fun catalog => rfl, rfl, ?_, rfl⟩
  have hfb : find_best_rocket [[]] =
      find_best_rocket_loop [[]] (Rocket.mk []) (-1) := rfl
  have h0 : Rocket.total_delta_v (Rocket.mk ([] : List Stage)) = .ok 0 := rfl
  show find_best_rocket [[]] = .ok (Rocket.mk [])
  rw [hfb, find_best_rocket_loop_cons h0, if_pos (by norm_num : (-1 : ℝ) < 0)]
  rfl

/-- C7: `total_delta_v()` of a rocket equals the arithmetic sum of its
stages' `delta_v()` values in stage order whenever every stage's delta-v is
defined, and for zero stages the sum is 0. -/
theorem claim7_total_delta_v_is_sum :
    (∀ (stages : List Stage),
      (∀ s ∈ stages, s.dry_mass + s.payload_mass ≠ 0) →
      Rocket.total_delta_v (Rocket.mk stages) =
        .ok ((stages.map Stage.delta_v_val).sum)) ∧
    Rocket.total_delta_v (Rocket.mk []) = .ok 0 :=
  ⟨fun stages h => by
      simpa [Rocket.total_delta_v] using sum_delta_v_eq_ok stages h,
   rfl⟩

/-- Witness for C7 at a concrete one-stage rocket. -/
theorem claim7_witness :
    Rocket.total_delta_v (Rocket.mk [Stage.mk RP1_LOX 1 0 0]) =
      .ok (([Stage.mk RP1_LOX 1 0 0].map Stage.delta_v_val).sum) :=
  claim7_total_delta_v_is_sum.1 [Stage.mk RP1_LOX 1 0 0]
    (by
      intro s hs
      rw [List.mem_singleton] at hs
      subst hs
      show (1 : ℝ) + 0 ≠ 0
      norm_num)

/-- C9: for a valid stage (non-negative masses, positive `dry + payload`,
positive isp), `delta_v()` returns a strictly positive value when
`propellant_mass > 0` and returns exactly 0 when `propellant_mass = 0`. -/
theorem claim9_delta_v_sign (s : Stage)
    (hdry : 0 ≤ s.dry_mass) (hprop : 0 ≤ s.propellant_mass)
    (hpay : 0 ≤ s.payload_mass) (hden : 0 < s.dry_mass + s.payload_mass)
    (hisp : 0 < s.propellant.isp) :
    (0 < s.propellant_mass → ∃ v, s.delta_v = .ok v ∧ 0 < v) ∧
    (s.propellant_mass = 0 → s.delta_v = .ok 0) := by
  have hne : s.dry_mass + s.payload_mass ≠ 0 := ne_of_gt hden
  constructor
  · intro hp
    refine ⟨s.delta_v_val, Stage.delta_v_eq_ok s hne, ?_⟩
    have hr := one_lt_mass_ratio_val s hden hp
    have hlog := Real.log_pos hr
    have hg : (0 : ℝ) < Stage.g0 := by rw [Stage.g0]; norm_num
    exact mul_pos (mul_pos hg hisp) hlog
  · intro hp
    rw [Stage.delta_v_eq_ok s hne, Stage.delta_v_val,
      mass_ratio_val_eq_one s hne hp, Real.log_one, mul_zero]

/-- Witness for C9 at two concrete stages (propellant mass 1 and 0). -/
theorem claim9_witness :
    (∃ v, (Stage.mk RP1_LOX 1 1 0).delta_v = .ok v ∧ 0 < v) ∧
    (Stage.mk RP1_LOX 1 0 0).delta_v = .ok 0 := by
  constructor
  · exact (claim9_delta_v_sign (Stage.mk RP1_LOX 1 1 0)
      (by show (0 : ℝ) ≤ 1; norm_num) (by show (0 : ℝ) ≤ 1; norm_num)
      (by show (0 : ℝ) ≤ 0; norm_num) (by show (0 : ℝ) < 1 + 0; norm_num)
      (by show (0 : ℝ) < 263; norm_num)).1 (by show (0 : ℝ) < 1; norm_num)
  · exact (claim9_delta_v_sign (Stage.mk RP1_LOX 1 0 0)
      (by show (0 : ℝ) ≤ 1; norm_num) (by show (0 : ℝ) ≤ 0; norm_num)
      (by show (0 : ℝ) ≤ 0; norm_num) (by show (0 : ℝ) < 1 + 0; norm_num)
      (by show (0 : ℝ) < 263; norm_num)).2 rfl

/-- C8: replacing stage `i`'s propellant by one with strictly higher isp,
all masses and all other stages unchanged, strictly increases the rocket's
total delta-v, provided stage `i` carries propellant and has positive
`dry + payload`. -/
theorem claim8_higher_isp_increases_total_delta_v (stages : List Stage)
    (i : Nat) (hi : i < stages.length) (p : Propellant)
    (hprop : 0 < (stages.get ⟨i, hi⟩).propellant_mass)
    (hden : 0 < (stages.get ⟨i, hi⟩).dry_mass +
      (stages.get ⟨i, hi⟩).payload_mass)
    (hisp : (stages.get ⟨i, hi⟩).propellant.isp < p.isp) :
    Rocket.total_delta_v_val (Rocket.mk stages) <
      Rocket.total_delta_v_val
        (Rocket.mk (stages.set i (set_propellant (stages.get ⟨i, hi⟩) p))) := by
  induction stages generalizing i with
  | nil => exact absurd hi (by simp)
  | cons s t ih =>
    cases i with
    | zero =>
      have h := delta_v_val_lt_of_isp_lt s p hprop hden hisp
      simp only [Rocket.total_delta_v_val, List.set, List.map_cons,
        List.sum_cons]
      exact add_lt_add_right h _
    | succ j =>
      have hj : j < t.length := Nat.lt_of_succ_lt_succ hi
      have h := ih j hj hprop hden hisp
      simp only [Rocket.total_delta_v_val, List.set, List.map_cons,
        List.sum_cons]
      exact add_lt_add_left h _

/-- Witness for C8: a single-stage rocket, RP-1/LOX (isp 263) replaced by
LH2/LOX (isp 421). -/
theorem claim8_witness :
    Rocket.total_delta_v_val (Rocket.mk [Stage.mk RP1_LOX 1 1 0]) <
      Rocket.total_delta_v_val (Rocket.mk
        (List.set [Stage.mk RP1_LOX 1 1 0] 0
          (set_propellant (Stage.mk RP1_LOX 1 1 0) LH2_LOX))) :=
  claim8_higher_isp_increases_total_delta_v [Stage.mk RP1_LOX 1 1 0] 0
    (by simp) LH2_LOX (by show (0 : ℝ) < 1; norm_num)
    (by show (0 : ℝ) < 1 + 0; norm_num) (by show (263 : ℝ) < 421; norm_num)

/-- C6: on a nonempty candidate list of valid stages (non-negative
propellant mass, positive `dry + payload`, positive isp — the data-model
invariants), `find_best_rocket` returns the candidate whose
`total_delta_v()` is maximal, and every candidate generated before it
scores strictly lower, so the first candidate wins ties (the loop compares
with strict greater-than against the running best). -/
theorem claim6_find_best_returns_first_maximizer
    (candidates : List (List Stage)) (hne : candidates ≠ [])
    (hvalid : ∀ c ∈ candidates, ∀ s ∈ c,
      0 ≤ s.propellant_mass ∧ 0 < s.dry_mass + s.payload_mass ∧
      0 < s.propellant.isp) :
    ∃ (i : Nat) (hi : i < candidates.length),
      find_best_rocket candidates =
        .ok (Rocket.mk (candidates.get ⟨i, hi⟩)) ∧
      (∀ c ∈ candidates, Rocket.total_delta_v_val (Rocket.mk c) ≤
        Rocket.total_delta_v_val (Rocket.mk (candidates.get ⟨i, hi⟩))) ∧
      (∀ c ∈ candidates.take i, Rocket.total_delta_v_val (Rocket.mk c) <
        Rocket.total_delta_v_val (Rocket.mk (candidates.get ⟨i, hi⟩))) := by
  match candidates, hne with
  | c0 :: cs, _ =>
    have hwf : ∀ c ∈ c0 :: cs, ∀ s ∈ c, s.dry_mass + s.payload_mass ≠ 0 :=
      fun c hc s hs => ne_of_gt (hvalid c hc s hs).2.1
    have hrun := find_best_rocket_loop_spec (c0 :: cs) (Rocket.mk c0) (-1) hwf
    have hcheck : 0 ≤ Rocket.total_delta_v_val (Rocket.mk c0) :=
      total_delta_v_val_nonneg c0 (hvalid c0 (by simp))
    rcases hrun with ⟨hall, _⟩ | ⟨i, hi, heq, _, hfirst, hmax⟩
    · exact absurd (hall c0 (by simp)) (by push_neg; linarith)
    · exact ⟨i, hi, heq, hmax, hfirst⟩

/-- Witness for C6 on a concrete two-candidate list. -/
theorem claim6_witness :
    ∃ (i : Nat)
      (hi : i < [[Stage.mk RP1_LOX 1 1 0], [Stage.mk LH2_LOX 1 1 0]].length),
      find_best_rocket [[Stage.mk RP1_LOX 1 1 0], [Stage.mk LH2_LOX 1 1 0]] =
        .ok (Rocket.mk
          ([[Stage.mk RP1_LOX 1 1 0], [Stage.mk LH2_LOX 1 1 0]].get ⟨i, hi⟩)) ∧
      (∀ c ∈ [[Stage.mk RP1_LOX 1 1 0], [Stage.mk LH2_LOX 1 1 0]],
        Rocket.total_delta_v_val (Rocket.mk c) ≤
        Rocket.total_delta_v_val (Rocket.mk
          ([[Stage.mk RP1_LOX 1 1 0], [Stage.mk LH2_LOX 1 1 0]].get ⟨i, hi⟩))) ∧
      (∀ c ∈ [[Stage.mk RP1_LOX 1 1 0], [Stage.mk LH2_LOX 1 1 0]].take i,
        Rocket.total_delta_v_val (Rocket.mk c) <
        Rocket.total_delta_v_val (Rocket.mk
          ([[Stage.mk RP1_LOX 1 1 0], [Stage.mk LH2_LOX 1 1 0]].get ⟨i, hi⟩))) :=
  claim6_find_best_returns_first_maximizer
    [[Stage.mk RP1_LOX 1 1 0], [Stage.mk LH2_LOX 1 1 0]] (by simp)
    (by
      intro c hc s hs
      rcases List.mem_cons.1 hc with rfl | hc2
      · rw [List.mem_singleton] at hs
        subst hs
        exact ⟨by show (0 : ℝ) ≤ 1; norm_num,
          by show (0 : ℝ) < 1 + 0; norm_num,
          by show (0 : ℝ) < 263; norm_num⟩
      · rw [List.mem_singleton] at hc2
        subst hc2
        rw [List.mem_singleton] at hs
        subst hs
        exact ⟨by show (0 : ℝ) ≤ 1; norm_num,
          by show (0 : ℝ) < 1 + 0; norm_num,
          by show (0 : ℝ) < 421; norm_num⟩)

/-- C1 (amended): for every stage with `dry_mass + payload_mass ≠ 0`,
`delta_v()` returns `g0 * propellant.isp * ln(mass_ratio)` with the
constant `g0 = 9.81` that the code actually uses (not 9.80665), where
`mass_ratio = (dry + propellant + payload) / (dry + payload)`. -/
theorem claim1_delta_v_formula_with_g0_9_81 (s : Stage)
    (h : s.dry_mass + s.payload_mass ≠ 0) :
    s.delta_v = .ok (9.81 * s.propellant.isp *
      Real.log ((s.dry_mass + s.propellant_mass + s.payload_mass) /
        (s.dry_mass + s.payload_mass))) := by
  rw [Stage.delta_v_eq_ok s h]
  rfl

/-- Witness for C1 (amended) at a concrete stage. -/
theorem claim1_witness :
    (Stage.mk RP1_LOX 2 1 0).delta_v =
      .ok (9.81 * (Stage.mk RP1_LOX 2 1 0).propellant.isp *
        Real.log (((2 : ℝ) + 1 + 0) / (2 + 0))) :=
  claim1_delta_v_formula_with_g0_9_81 (Stage.mk RP1_LOX 2 1 0)
    (by show (2 : ℝ) + 0 ≠ 0; norm_num)

/-- C1 counterexample: on `unit_isp_test_stage` (isp 1, mass ratio exactly
`e`) the code's `delta_v()` returns 9.81, whereas the claimed formula with
`g0 = 9.80665` gives 9.80665, so the claim as stated is false. -/
theorem claim1_counterexample :
    unit_isp_test_stage.delta_v ≠
      .ok (9.80665 * unit_isp_test_stage.propellant.isp *
        Real.log unit_isp_test_stage.mass_ratio_val) := by
  have hne : unit_isp_test_stage.dry_mass + unit_isp_test_stage.payload_mass ≠
      0 := by show (1 : ℝ) + 0 ≠ 0; norm_num
  have hr : unit_isp_test_stage.mass_ratio_val = Real.exp 1 := by
    rw [Stage.mass_ratio_val, Stage.total_mass]
    show ((1 : ℝ) + (Real.exp 1 - 1) + 0) / (1 + 0) = Real.exp 1
    ring_nf
  have h1 : unit_isp_test_stage.delta_v = .ok 9.81 := by
    rw [Stage.delta_v_eq_ok _ hne, Stage.delta_v_val, hr, Real.log_exp]
    show Except.ok (Stage.g0 * (1 : ℝ) * 1) = Except.ok 9.81
    rw [Stage.g0]
    norm_num
  have h2 : 9.80665 * unit_isp_test_stage.propellant.isp *
      Real.log unit_isp_test_stage.mass_ratio_val = 9.80665 := by
    rw [hr, Real.log_exp]
    show (9.80665 : ℝ) * 1 * 1 = 9.80665
    norm_num
  rw [h1, h2]
  intro hcon
  have : (9.81 : ℝ) = 9.80665 := by
    exact Except.ok.inj hcon
  norm_num at this

/-- C5 (amended): a stage with `dry_mass + payload_mass = 0` and positive
propellant mass makes `delta_v()` fail with an uncaught Python
`ZeroDivisionError` from the mass-ratio division, not with an
`InvalidConfigurationError` (no such error kind exists in the code). -/
theorem claim5_zero_denominator_zero_division_error (s : Stage)
    (h : s.dry_mass + s.payload_mass = 0) (hp : 0 < s.propellant_mass) :
    s.delta_v = .error .zeroDivisionError := by
  simp [Stage.delta_v, Stage.mass_ratio, h, Except.map]

/-- Witness for C5 (amended) at a concrete stage. -/
theorem claim5_witness :
    (Stage.mk Solid 0 1 0).delta_v = .error .zeroDivisionError :=
  claim5_zero_denominator_zero_division_error (Stage.mk Solid 0 1 0)
    (by show (0 : ℝ) + 0 = 0; norm_num) (by show (0 : ℝ) < 1; norm_num)

/-- C5 counterexample: at the concrete stage of the spec's Scenario E
(`dry = 0, payload = 0, propellant = 1`), `delta_v()` signals
`ZeroDivisionError`, which is not the `InvalidConfigurationError` the claim
requires. -/
theorem claim5_counterexample :
    (Stage.mk Solid 0 1 0).delta_v = .error .zeroDivisionError ∧
    (Stage.mk Solid 0 1 0).delta_v ≠ .error .invalidConfigurationError := by
  have h : (Stage.mk Solid 0 1 0).delta_v = .error .zeroDivisionError := by
    rw [Stage.delta_v, Stage.mass_ratio,
      if_pos (show (Stage.mk Solid 0 1 0).dry_mass +
        (Stage.mk Solid 0 1 0).payload_mass = 0 from by
          show (0 : ℝ) + 0 = 0; norm_num)]
    rfl
  refine ⟨h, ?_⟩
  rw [h]
  simp

/-- C4 (amended): on an empty candidate list the optimizer does fail rather
than return a rocket, but with an uncaught `IndexError` from
`combinations[0]`; no `NoFeasibleSolutionError` exists in the code.  The
candidate list is empty exactly when the catalog is empty and there is at
least one stage. -/
theorem claim4_empty_candidates_index_error :
    find_best_rocket [] = .error .indexError ∧
    ∀ (n : Nat), generate_combinations ([] : List Propellant) (n + 1) = [] := by
  refine ⟨rfl, ?_⟩
  intro n
  simp [generate_combinations, recursive_generate_combinations]

/-- C4 counterexample: on the empty candidate list `find_best_rocket`
fails with `IndexError`, which is not the `NoFeasibleSolutionError` the
claim requires. -/
theorem claim4_counterexample :
    find_best_rocket [] = .error .indexError ∧
    find_best_rocket [] ≠ .error .noFeasibleSolutionError := by
  have h0 : find_best_rocket [] = Except.error PyErr.indexError := rfl
  refine ⟨h0, ?_⟩
  rw [h0]
  simp

/-- C2 (amended): the optimizer accepts no volume limits and the volume
filter in `find_all_stage_combinations` is commented out, so no candidate is
ever discarded: for every stage-budget list the candidate list has the full
size `|catalog| ^ N = 4 ^ N`, regardless of any intended volume limit. -/
theorem claim2_no_candidate_discarded (stages : List Stage) :
    (find_all_stage_combinations stages).length = 4 ^ stages.length := by
  have h4 : PROPELLANTS_values.length = 4 := rfl
  rw [find_all_stage_combinations, List.length_map,
    length_generate_combinations, h4]

/-- C2 counterexample: with the single stage budget (dry 1 kg, propellant
71 kg, no payload) and a per-stage volume limit of 1/2 m³, the candidate
using LH2/LOX has propellant volume 1 m³, which exceeds the limit, yet the
pipeline (which applies no volume filtering) returns exactly that candidate
as the best rocket — refuting "a candidate whose stage volume exceeds its
limit is never returned as best". -/
theorem claim2_counterexample :
    find_best_rocket (find_all_stage_combinations [Stage.mk RP1_LOX 1 71 0]) =
      .ok (Rocket.mk [Stage.mk LH2_LOX 1 71 0]) ∧
    (Stage.mk LH2_LOX 1 71 0).propellant_volume = 1 ∧
    ((1 : ℝ) / 2) < (Stage.mk LH2_LOX 1 71 0).propellant_volume := by
  have hc : find_all_stage_combinations [Stage.mk RP1_LOX 1 71 0] =
      [[Stage.mk RP1_LOX 1 71 0], [Stage.mk LH2_LOX 1 71 0],
       [Stage.mk N2O4_UDMH 1 71 0], [Stage.mk Solid 1 71 0]] := rfl
  have hvol : (Stage.mk LH2_LOX 1 71 0).propellant_volume = 1 := by
    rw [Stage.propellant_volume]
    show (71 : ℝ) / 71 = 1
    norm_num
  have hden : (1 : ℝ) + 0 ≠ 0 := by norm_num
  have h72 : ((1 : ℝ) + 71 + 0) / (1 + 0) = 72 := by norm_num
  have hL : 0 < Real.log 72 := Real.log_pos (by norm_num)
  have e1 : Rocket.total_delta_v (Rocket.mk [Stage.mk RP1_LOX 1 71 0]) =
      .ok (9.81 * 263 * Real.log 72) := by
    rw [total_delta_v_single RP1_LOX 1 71 0 hden, h72]
    show Except.ok (Stage.g0 * RP1_LOX.isp * Real.log 72) = _
    rw [Stage.g0]
    norm_num [RP1_LOX]
  have e2 : Rocket.total_delta_v (Rocket.mk [Stage.mk LH2_LOX 1 71 0]) =
      .ok (9.81 * 421 * Real.log 72) := by
    rw [total_delta_v_single LH2_LOX 1 71 0 hden, h72]
    show Except.ok (Stage.g0 * LH2_LOX.isp * Real.log 72) = _
    rw [Stage.g0]
    norm_num [LH2_LOX]
  have e3 : Rocket.total_delta_v (Rocket.mk [Stage.mk N2O4_UDMH 1 71 0]) =
      .ok (9.81 * 320 * Real.log 72) := by
    rw [total_delta_v_single N2O4_UDMH 1 71 0 hden, h72]
    show Except.ok (Stage.g0 * N2O4_UDMH.isp * Real.log 72) = _
    rw [Stage.g0]
    norm_num [N2O4_UDMH]
  have e4 : Rocket.total_delta_v (Rocket.mk [Stage.mk Solid 1 71 0]) =
      .ok (9.81 * 280 * Real.log 72) := by
    rw [total_delta_v_single Solid 1 71 0 hden, h72]
    show Except.ok (Stage.g0 * Solid.isp * Real.log 72) = _
    rw [Stage.g0]
    norm_num [Solid]
  have h0 : find_best_rocket
      [[Stage.mk RP1_LOX 1 71 0], [Stage.mk LH2_LOX 1 71 0],
       [Stage.mk N2O4_UDMH 1 71 0], [Stage.mk Solid 1 71 0]] =
    find_best_rocket_loop
      [[Stage.mk RP1_LOX 1 71 0], [Stage.mk LH2_LOX 1 71 0],
       [Stage.mk N2O4_UDMH 1 71 0], [Stage.mk Solid 1 71 0]]
      (Rocket.mk [Stage.mk RP1_LOX 1 71 0]) (-1) := rfl
  have hbest : find_best_rocket
      [[Stage.mk RP1_LOX 1 71 0], [Stage.mk LH2_LOX 1 71 0],
       [Stage.mk N2O4_UDMH 1 71 0], [Stage.mk Solid 1 71 0]] =
      .ok (Rocket.mk [Stage.mk LH2_LOX 1 71 0]) := by
    rw [h0, find_best_rocket_loop_cons e1, if_pos (by nlinarith),
      find_best_rocket_loop_cons e2, if_pos (by nlinarith),
      find_best_rocket_loop_cons e3, if_neg (by push_neg; nlinarith),
      find_best_rocket_loop_cons e4, if_neg (by push_neg; nlinarith)]
    rfl
  refine ⟨by rw [hc]; exact hbest, hvol, by rw [hvol]; norm_num⟩

end RocketSpecs
